import Mathlib

/-
Verification of the async DNS client (src/async-dns-client.cpp,
src/async-dns-client.hpp) against its natural-language specification.

The embedding is shallow.  All handler bodies run on a single strand
(boost::asio::io_context::strand `io_strand_`), so each completion handler
executes atomically with respect to the others; we model each handler as a
pure function on explicit state, and an execution as a sequence of handler
invocations.

External libresolv routines (res_nmkquery, ns_initparse, ns_parserr,
ns_name_uncompress, ns_get16, ns_get32) are not part of this repository; they
are modelled by their documented contracts: ns_get16/ns_get32 read big-endian
integers, res_nmkquery fails when the encoding does not fit the caller's
buffer, and ns_parserr / ns_name_uncompress are abstracted as the per-record
parse results and an abstract decompression function handed to the loop that
consumes them.
-/

namespace AsyncDnsClient

/-- QueryType from async-dns-client.hpp line 26: `enum QueryType { TYPE_A, TYPE_AAAA }`. -/
inductive QueryType
| TYPE_A
| TYPE_AAAA
deriving DecidableEq, Repr

/-- QueryResult from async-dns-client.hpp line 28:
`enum QueryResult { RESULT_SUCCESS, RESULT_TIMEOUT, RESULT_ERROR }`. -/
inductive QueryResult
| RESULT_SUCCESS
| RESULT_TIMEOUT
| RESULT_ERROR
deriving DecidableEq, Repr

/-- boost::asio::ip::address, abstracted: a v4 address is the 32-bit value
passed to `address_v4(ns_get32(...))` (line 270), a v6 address is the 16-byte
`bytes_type` read at line 274-275. -/
inductive IpAddress
| v4 (val : Nat)
| v6 (bytes : List Nat)
deriving DecidableEq, Repr

/-- A UDP endpoint (address and port), abstracting
boost::asio::ip::udp::endpoint; only equality is used (line 205). -/
structure Endpoint where
  addr : Nat
  port : Nat
deriving DecidableEq, Repr

/-- External libresolv ns_get16: read a 16-bit big-endian integer from the
first two octets (used at lines 128 and 222). -/
def ns_get16 (b : List Nat) : Nat :=
  b.getD 0 0 * 256 + b.getD 1 0

/-- External libresolv ns_get32: read a 32-bit big-endian integer from the
first four octets (used at line 270 on the record's RDATA). -/
def ns_get32 (b : List Nat) : Nat :=
  ((b.getD 0 0 * 256 + b.getD 1 0) * 256 + b.getD 2 0) * 256 + b.getD 3 0

/-- DNS record type A (arpa/nameser.h ns_t_a). -/
def ns_t_a : Nat := 1

/-- DNS record type CNAME (arpa/nameser.h ns_t_cname). -/
def ns_t_cname : Nat := 5

/-- DNS record type AAAA (arpa/nameser.h ns_t_aaaa). -/
def ns_t_aaaa : Nat := 28

/-- Classic maximum UDP DNS message size, arpa/nameser.h PACKETSZ = 512;
the request buffer is constructed with this size (hpp line 57 together with
cpp line 182 `request(PACKETSZ)`). -/
def PACKETSZ : Nat := 512

/-- An answer resource record as yielded by a successful ns_parserr call:
`owner` is ns_rr_name (the owner name, decompressed by ns_parserr itself),
`rtype` is ns_rr_type, `rdlength` is ns_rr_rdlen, and `rdata` are the octets
from the position ns_rr_rdata points at (the C code reads through that raw
pointer, so `rdata` is not truncated to `rdlength`). -/
structure RR where
  owner : String
  rtype : Nat
  rdlength : Nat
  rdata : List Nat
deriving DecidableEq, Repr

/-- The result of ns_initparse plus the header reads at lines 222-223: the
16-bit transaction ID, the RCODE flag, and the answer-section records.  Each
answer item is `none` when ns_parserr fails for that record (line 253) and
`some rr` otherwise. -/
structure ParsedMsg where
  id : Nat
  rcode : Nat
  answers : List (Option RR)
deriving DecidableEq, Repr

/-- A received datagram: the sender endpoint (`remote`, line 191) and the
parse outcome (`none` when ns_initparse fails, line 216). -/
structure Datagram where
  sender : Endpoint
  parsed : Option ParsedMsg
deriving DecidableEq, Repr

/-- Completion of one async_receive_from: either a transport error
(`err` truthy at line 198, e.g. the socket closed during stop()) or a
datagram. -/
inductive RecvResult
| transportError
| datagram (d : Datagram)
deriving DecidableEq, Repr

/-- One step of the answer loop of lines 250-278: ns_parserr failure is
skipped (`continue`), CNAME records append `(owner, decompressed rdata)` to
the cname accumulator when ns_name_uncompress succeeds and are skipped when
it fails, A records append `(owner, address_v4(ns_get32(rdata)))`, AAAA
records append `(owner, the 16 rdata octets as v6)`, and any other type
falls off the if-chain.  `uncomp` abstracts ns_name_uncompress applied
against the whole message. -/
def answerStep (uncomp : List Nat → Option String)
    (acc : List (String × IpAddress) × List (String × String))
    (item : Option RR) :
    List (String × IpAddress) × List (String × String) :=
  match item with
  | none => acc
  | some rr =>
    if rr.rtype = ns_t_cname then
      match uncomp rr.rdata with
      | none => acc
      | some dname => (acc.1, acc.2 ++ [(rr.owner, dname)])
    else if rr.rtype = ns_t_a then
      (acc.1 ++ [(rr.owner, IpAddress.v4 (ns_get32 rr.rdata))], acc.2)
    else if rr.rtype = ns_t_aaaa then
      (acc.1 ++ [(rr.owner, IpAddress.v6 (rr.rdata.take 16))], acc.2)
    else acc

/-- The whole answer loop of lines 250-278, starting from the empty `addrs`
and `cnames` vectors declared at lines 247-248. -/
def processAnswers (uncomp : List Nat → Option String)
    (answers : List (Option RR)) :
    List (String × IpAddress) × List (String × String) :=
  answers.foldl (answerStep uncomp) ([], [])

/-- A Query as stored in the Query Table `queries_` (hpp line 74): its own
`id` field, name, type, and `done` flag.  The callback, timer and request
bytes live on the shared Query object and are modelled separately. -/
structure QEntry where
  id : Nat
  name : String
  qtype : QueryType
  done : Bool
deriving DecidableEq, Repr

/-- std::map::find on `queries_` (line 233): lookup by transaction ID. -/
def lookupTable : List (Nat × QEntry) → Nat → Option QEntry
  | [], _ => none
  | (k, v) :: rest, i => if k = i then some v else lookupTable rest i

/-- std::map::erase on `queries_` (lines 147, 166, 284): remove the entry
with the given key, if present (std::map keys are unique). -/
def eraseKey : List (Nat × QEntry) → Nat → List (Nat × QEntry)
  | [], _ => []
  | (k, v) :: rest, i => if k = i then rest else (k, v) :: eraseKey rest i

/-- `queries_[query->id] = query` (line 138): std::map operator[] followed by
assignment — replace the mapped value if the key is present, otherwise add a
new entry.  There is no collision check and no redraw. -/
def mapInsert : List (Nat × QEntry) → Nat → QEntry → List (Nat × QEntry)
  | [], i, q => [(i, q)]
  | (k, v) :: rest, i, q =>
      if k = i then (k, q) :: rest else (k, v) :: mapInsert rest i q

/-- The registration performed by the task posted at lines 134-138: the query
is stored under its own drawn `id`. -/
def registerQueryStep (table : List (Nat × QEntry)) (q : QEntry) :
    List (Nat × QEntry) :=
  mapInsert table q.id q

/-- One invocation of the user callback, with the arguments of
`query->cb(result, name, type, rcode, addrs, cnames)`. -/
structure CallbackCall where
  result : QueryResult
  name : String
  qtype : QueryType
  rcode : Nat
  addrs : List (String × IpAddress)
  cnames : List (String × String)
deriving DecidableEq, Repr

/-- The effect of one run of the receive completion handler: the Query Table
afterwards, the callbacks fired, the timers cancelled (by query id), and
whether start_receiving() was reissued. -/
structure RecvEffect where
  table : List (Nat × QEntry)
  calls : List CallbackCall
  cancels : List Nat
  rearm : Bool
deriving DecidableEq, Repr

/-- The receive completion handler, lines 197-287.  In source order: a
transport error returns without re-arming (lines 198-203); a sender other
than the configured nameserver is dropped and the receive reissued (lines
205-209); an ns_initparse failure is dropped and the receive reissued (lines
216-220); an ID absent from the table is dropped (lines 233-238); a query
already done is dropped (lines 241-245); otherwise the answers are processed
(lines 250-278), the timer is cancelled, the callback fires RESULT_SUCCESS
with the header RCODE, the entry is erased at `query->id`, and the receive is
reissued (lines 280-286). -/
def handleReceive (uncomp : List Nat → Option String) (nameserver : Endpoint)
    (table : List (Nat × QEntry)) (r : RecvResult) : RecvEffect :=
  match r with
  | RecvResult.transportError => ⟨table, [], [], false⟩
  | RecvResult.datagram d =>
    if d.sender = nameserver then
      match d.parsed with
      | none => ⟨table, [], [], true⟩
      | some m =>
        match lookupTable table m.id with
        | none => ⟨table, [], [], true⟩
        | some q =>
          if q.done then ⟨table, [], [], true⟩
          else
            let res := processAnswers uncomp m.answers
            ⟨eraseKey table q.id,
             [⟨QueryResult.RESULT_SUCCESS, q.name, q.qtype, m.rcode,
               res.1, res.2⟩],
             [q.id],
             true⟩
    else ⟨table, [], [], true⟩

/-- The externally visible primitive actions performed by async_query, in
the order the code performs them: the encode-failure callback
(lines 103 / 118), the table registration `queries_[query->id] = query`
(line 138), arming the per-query timer (lines 140-141), and submitting the
datagram with async_send_to (line 154). -/
inductive Action
| callbackError
| registerQuery (id : Nat)
| armTimer
| sendSubmit
deriving DecidableEq, Repr

/-- External libresolv res_nmkquery, modelled by its documented contract:
it encodes the question for `(name, type)` into a caller-supplied buffer of
`buflen` octets and fails (returns -1) when the name is malformed or the
encoded message does not fit the buffer.  `rawEncode` abstracts the wire
encoding itself (returning `none` on malformed names); the explicit length
check models the buffer bound — the code passes
`query->request.data(), query->request.size()` with the buffer constructed
as `request(PACKETSZ)` (lines 109-115, 182). -/
def res_nmkquery (rawEncode : String → QueryType → Option (List Nat))
    (name : String) (t : QueryType) (buflen : Nat) : Option (List Nat) :=
  match rawEncode name t with
  | none => none
  | some bytes => if bytes.length ≤ buflen then some bytes else none

/-- The submit path async_query, lines 53-171, as the list of primitive
actions it performs together with the value of `query->done` at the point
async_query returns.  `resInitOk` is whether res_ninit succeeded (line 101).
On res_ninit failure or res_nmkquery failure the callback fires RESULT_ERROR,
`done` is set true, and async_query returns without posting anything
(lines 101-106 and 116-121).  Otherwise the drawn ID is read back from the
encoded header with ns_get16 (line 128) and the posted task registers the
query, arms the timer and submits the send, in that order (lines 134-170);
`done` is still false when async_query returns. -/
def asyncQuerySubmit (rawEncode : String → QueryType → Option (List Nat))
    (resInitOk : Bool) (name : String) (t : QueryType) :
    List Action × Bool :=
  if resInitOk then
    match res_nmkquery rawEncode name t PACKETSZ with
    | none => ([Action.callbackError], true)
    | some bytes =>
        ([Action.registerQuery (ns_get16 bytes), Action.armTimer,
          Action.sendSubmit], false)
  else ([Action.callbackError], true)

/-- Status with which a steady_timer wait completes.  Per the Asio timer
contract a wait handler is invoked either with success (the timer expired)
or with operation_aborted (the wait was cancelled); `aborted` can only be
delivered after some handler has called `timer.cancel()`. -/
inductive TimerStatus
| success
| aborted
deriving DecidableEq, Repr

/-- Status with which async_send_to completes: `err` falsy or truthy
(line 159). -/
inductive SendStatus
| ok
| error
deriving DecidableEq, Repr

/-- The state of one submitted query, as seen by the strand-serialized
handlers: its `done` flag, whether the Query Table currently maps the
query's ID to this query, whether `timer.cancel()` has been called on its
timer, and the sequence of terminal outcomes delivered to its callback so
far. -/
structure QState where
  done : Bool
  inTable : Bool
  timerCancelled : Bool
  calls : List QueryResult
deriving DecidableEq, Repr

/-- The state of a query right after the posted submit task registered it
(line 138): present in the table, not done, timer armed and not cancelled,
callback not yet invoked. -/
def initQState : QState :=
  { done := false, inTable := true, timerCancelled := false, calls := [] }

/-- The timer wait handler, lines 142-152, projected onto one query:
`if (!err && !query->done)` record RESULT_TIMEOUT, set done, erase the table
entry; `else if (err != operation_aborted)` only log.  An aborted completion
therefore does nothing, and a successful completion on a done query only
logs. -/
def timerHandler (s : TimerStatus) (st : QState) : QState :=
  match s with
  | TimerStatus.success =>
    if st.done = false then
      { st with done := true, inTable := false,
                calls := st.calls ++ [QueryResult.RESULT_TIMEOUT] }
    else st
  | TimerStatus.aborted => st

/-- The async_send_to completion handler, lines 158-169, projected onto one
query: on error, if not done, cancel the timer, record RESULT_ERROR, set
done, erase the table entry; otherwise nothing. -/
def sendHandler (s : SendStatus) (st : QState) : QState :=
  match s with
  | SendStatus.ok => st
  | SendStatus.error =>
    if st.done = false then
      { st with timerCancelled := true, done := true, inTable := false,
                calls := st.calls ++ [QueryResult.RESULT_ERROR] }
    else st

/-- The receive handler's effect on one query when a datagram carrying this
query's ID arrives from the nameserver and parses (lines 233-287, projected):
the table lookup finds this query only if the table still maps the ID to it;
if found and not done, the timer is cancelled, RESULT_SUCCESS is recorded,
done is set, and the entry erased; if found but done, or not found, nothing
happens to this query. -/
def recvCorrelated (st : QState) : QState :=
  if st.inTable then
    if st.done then st
    else
      { st with timerCancelled := true, done := true, inTable := false,
                calls := st.calls ++ [QueryResult.RESULT_SUCCESS] }
  else st

/-- Events that can affect a registered query, each executed atomically on
the strand: its timer wait completion, its send completion, the arrival of a
correlated datagram, and eviction of its table entry by another submission
that drew the same ID (`queries_[id] = other` at line 138 overwrites, and the
evicted path's later `queries_.erase(id)` removes whatever entry the key then
holds). -/
inductive Ev
| timer (s : TimerStatus)
| send (s : SendStatus)
| recv
| evict
deriving DecidableEq, Repr

/-- Dispatch one event to the handler the code runs for it. -/
def stepQ (st : QState) (e : Ev) : QState :=
  match e with
  | Ev.timer s => timerHandler s st
  | Ev.send s => sendHandler s st
  | Ev.recv => recvCorrelated st
  | Ev.evict => { st with inTable := false }

/-- Run a sequence of strand-serialized events against a query's state. -/
def runEvents (st : QState) (evs : List Ev) : QState :=
  evs.foldl stepQ st

/-- Number of timer completions in an event sequence.  Asio delivers the
wait handler of an armed timer exactly once. -/
def timerCount (evs : List Ev) : Nat :=
  evs.countP fun e =>
    match e with
    | Ev.timer _ => true
    | _ => false

/-- Validity of timer statuses along a run: operation_aborted can be
delivered only if `timer.cancel()` was called before the completion is
handled (Asio timer cancellation contract). -/
def abortOk : QState → List Ev → Bool
  | _, [] => true
  | st, e :: rest =>
    (match e with
     | Ev.timer TimerStatus.aborted => st.timerCancelled
     | _ => true) && abortOk (stepQ st e) rest

/-- Invariant tying `done` to the callback history: a query is either not
done with no callback delivered and its timer not cancelled, or done with
exactly one callback delivered. -/
def QInv (st : QState) : Prop :=
  (st.done = false ∧ st.calls = [] ∧ st.timerCancelled = false) ∨
  (st.done = true ∧ st.calls.length = 1)

/-- Declarative extraction of one address-list element, used to state that
the address list is the in-order projection of the answer section: a
successfully parsed A record yields its v4 address, an AAAA record its v6
address, anything else nothing. -/
def addrOf (item : Option RR) : Option (String × IpAddress) :=
  match item with
  | none => none
  | some rr =>
    if rr.rtype = ns_t_cname then none
    else if rr.rtype = ns_t_a then
      some (rr.owner, IpAddress.v4 (ns_get32 rr.rdata))
    else if rr.rtype = ns_t_aaaa then
      some (rr.owner, IpAddress.v6 (rr.rdata.take 16))
    else none

/-- Declarative extraction of one cname-list element: a successfully parsed
CNAME record whose RDATA decompresses yields `(owner, canonical)`. -/
def cnameOf (uncomp : List Nat → Option String) (item : Option RR) :
    Option (String × String) :=
  match item with
  | none => none
  | some rr =>
    if rr.rtype = ns_t_cname then
      match uncomp rr.rdata with
      | none => none
      | some dname => some (rr.owner, dname)
    else none

/-! Concrete inputs used by the witnesses and the counterexample. -/

/-- A decompression function that always fails (no compression pointers
resolvable); concrete instance for witnesses that need no CNAME. -/
def u0 : List Nat → Option String := fun _ => none

/-- A decompression function for the C10 witness: the two-octet compression
pointer `c0 0c` resolves to "foo.test". -/
def uC : List Nat → Option String :=
  fun b => if b = [192, 12] then some "foo.test" else none

/-- The configured nameserver endpoint used in witnesses. -/
def ns0 : Endpoint := ⟨1, 53⟩

/-- A registered query with drawn ID 7 ("a.example"). -/
def qA : QEntry := ⟨7, "a.example", QueryType.TYPE_A, false⟩

/-- A later submission whose drawn ID collides with qA's ID 7. -/
def qB : QEntry := ⟨7, "b.example", QueryType.TYPE_AAAA, false⟩

/-- A registered query with ID 3, no collision. -/
def qC : QEntry := ⟨3, "c.example", QueryType.TYPE_A, false⟩

/-- Pending query for the NXDOMAIN witness. -/
def qNx : QEntry := ⟨9, "nope.invalid", QueryType.TYPE_A, false⟩

/-- Table holding only qNx. -/
def tblNx : List (Nat × QEntry) := [(9, qNx)]

/-- An NXDOMAIN reply: ID 9, RCODE 3, zero answer records. -/
def mNx : ParsedMsg := ⟨9, 3, []⟩

/-- The NXDOMAIN datagram, sent from the configured nameserver. -/
def dNx : Datagram := ⟨ns0, some mNx⟩

/-- A datagram from an endpoint other than the configured nameserver. -/
def dSpoof : Datagram := ⟨⟨2, 53⟩, none⟩

/-- A registered query used by the spoof-drop witness. -/
def q8 : QEntry := ⟨4, "a.test", QueryType.TYPE_A, false⟩

/-- Table holding only q8. -/
def tbl8 : List (Nat × QEntry) := [(4, q8)]

/-- A type-A answer record: owner "foo.test", RDLENGTH 4, RDATA 10.0.0.1. -/
def rrA0 : RR := ⟨"foo.test", 1, 4, [10, 0, 0, 1]⟩

/-- A CNAME answer record whose RDATA is the compression pointer `c0 0c`. -/
def rrCN0 : RR := ⟨"www.foo.test", 5, 2, [192, 12]⟩

/-- Pending query for the answer-order witness. -/
def q10 : QEntry := ⟨12, "www.foo.test", QueryType.TYPE_A, false⟩

/-- A reply with a CNAME record, an A record, and one record whose
ns_parserr call fails. -/
def m10 : ParsedMsg := ⟨12, 0, [some rrCN0, some rrA0, none]⟩

/-- The answer-order witness datagram. -/
def d10 : Datagram := ⟨ns0, some m10⟩

/-- Table holding only q10. -/
def tbl10 : List (Nat × QEntry) := [(12, q10)]

/-- A successful encoding: 12-octet message whose header starts with the
ID octets 00 07. -/
def msg0 : List Nat := 0 :: 7 :: List.replicate 10 0

/-- A raw encoder that always yields msg0. -/
def reOk : String → QueryType → Option (List Nat) := fun _ _ => some msg0

/-- A 600-octet encoded message, exceeding the 512-octet buffer. -/
def bigMsg : List Nat := List.replicate 600 0

/-- A raw encoder that always yields the oversize bigMsg. -/
def reBig : String → QueryType → Option (List Nat) := fun _ _ => some bigMsg

/-- Event sequence for the exactly-once witness: the send completes
successfully, the response arrives, then the timer completes. -/
def evs0 : List Ev :=
  [Ev.send SendStatus.ok, Ev.recv, Ev.timer TimerStatus.success]

/-! Helper lemmas. -/

/-- The answer loop's fold is the in-order projection of the answer section:
starting from accumulators `a` and `c`, it appends exactly the extracted
address pairs and cname pairs, in answer-section order. -/
theorem foldl_answerStep (u : List Nat → Option String) (l : List (Option RR)) :
    ∀ (a : List (String × IpAddress)) (c : List (String × String)),
      l.foldl (answerStep u) (a, c) =
        (a ++ l.filterMap addrOf, c ++ l.filterMap (cnameOf u)) := by
  induction l with
  | nil => intro a c; simp
  | cons item rest ih =>
    intro a c
    cases item with
    | none =>
      simp only [List.foldl_cons, answerStep, List.filterMap_cons, addrOf, cnameOf]
      exact ih a c
    | some rr =>
      by_cases h5 : rr.rtype = ns_t_cname
      · cases hu : u rr.rdata with
        | none =>
          simp [answerStep, addrOf, cnameOf, h5, hu, ns_t_cname, ih a c]
        | some dn =>
          simp [answerStep, addrOf, cnameOf, h5, hu, ns_t_cname, ih]
      · by_cases h1 : rr.rtype = ns_t_a
        · simp [answerStep, addrOf, cnameOf, h5, h1, ns_t_a, ns_t_cname, ih]
        · by_cases h28 : rr.rtype = ns_t_aaaa
          · simp [answerStep, addrOf, cnameOf, h5, h1, h28, ns_t_a,
              ns_t_cname, ns_t_aaaa, ih]
          · simp [answerStep, addrOf, cnameOf, h5, h1, h28, ih a c]

/-- Running an event sequence starting with `e` first dispatches `e`. -/
theorem runEvents_cons (st : QState) (e : Ev) (rest : List Ev) :
    runEvents st (e :: rest) = runEvents (stepQ st e) rest := rfl

/-- Each strand-serialized handler preserves the callback invariant. -/
theorem stepQ_inv (st : QState) (e : Ev) (h : QInv st) : QInv (stepQ st e) := by
  rcases h with ⟨hd, hc, ht⟩ | ⟨hd, hc⟩
  · cases e with
    | timer s =>
      cases s with
      | success => right; simp [stepQ, timerHandler, hd, hc]
      | aborted => left; simp [stepQ, timerHandler, hd, hc, ht]
    | send s =>
      cases s with
      | ok => left; simp [stepQ, sendHandler, hd, hc, ht]
      | error => right; simp [stepQ, sendHandler, hd, hc]
    | recv =>
      by_cases hin : st.inTable
      · right; simp [stepQ, recvCorrelated, hin, hd, hc]
      · left; simp [stepQ, recvCorrelated, hin, hd, hc, ht]
    | evict => left; simp [stepQ, hd, hc, ht]
  · cases e with
    | timer s =>
      cases s with
      | success => right; simp [stepQ, timerHandler, hd, hc]
      | aborted => right; simp [stepQ, timerHandler, hd, hc]
    | send s =>
      cases s with
      | ok => right; simp [stepQ, sendHandler, hd, hc]
      | error => right; simp [stepQ, sendHandler, hd, hc]
    | recv =>
      by_cases hin : st.inTable
      · right; simp [stepQ, recvCorrelated, hin, hd, hc]
      · right; simp [stepQ, recvCorrelated, hin, hd, hc]
    | evict => right; simp [stepQ, hd, hc]

/-- No handler ever resets `done`. -/
theorem stepQ_done_mono (st : QState) (e : Ev) (h : st.done = true) :
    (stepQ st e).done = true := by
  cases e with
  | timer s => cases s <;> simp [stepQ, timerHandler, h]
  | send s => cases s <;> simp [stepQ, sendHandler, h]
  | recv => by_cases hin : st.inTable <;> simp [stepQ, recvCorrelated, hin, h]
  | evict => simp [stepQ, h]

/-- The callback invariant holds after any event sequence. -/
theorem runEvents_inv (evs : List Ev) :
    ∀ st : QState, QInv st → QInv (runEvents st evs) := by
  induction evs with
  | nil => intro st h; exact h
  | cons e rest ih =>
    intro st h
    rw [runEvents_cons]
    exact ih (stepQ st e) (stepQ_inv st e h)

/-- `done` stays true along any event sequence. -/
theorem runEvents_done_mono (evs : List Ev) :
    ∀ st : QState, st.done = true → (runEvents st evs).done = true := by
  induction evs with
  | nil => intro st h; exact h
  | cons e rest ih =>
    intro st h
    rw [runEvents_cons]
    exact ih (stepQ st e) (stepQ_done_mono st e h)

/-- After a valid event sequence containing the query's single timer
completion, the query is done: either some handler already recorded a
terminal outcome, or the timer fires RESULT_TIMEOUT. -/
theorem runEvents_timer_done (evs : List Ev) :
    ∀ st : QState, QInv st → abortOk st evs = true → timerCount evs = 1 →
      (runEvents st evs).done = true := by
  induction evs with
  | nil => intro st _ _ hT; simp [timerCount] at hT
  | cons e rest ih =>
    intro st hI hA hT
    rw [runEvents_cons]
    cases e with
    | timer s =>
      have hd : (stepQ st (Ev.timer s)).done = true := by
        cases s with
        | success =>
          by_cases h : st.done = true
          · exact stepQ_done_mono st _ h
          · have h2 : st.done = false := by
              cases hdv : st.done
              · rfl
              · exact absurd hdv h
            simp [stepQ, timerHandler, h2]
        | aborted =>
          have hc : st.timerCancelled = true := by
            simp [abortOk] at hA
            exact hA.1
          rcases hI with ⟨_, _, ht⟩ | ⟨hd2, _⟩
          · rw [ht] at hc; cases hc
          · simp [stepQ, timerHandler, hd2]
      exact runEvents_done_mono rest _ hd
    | send s =>
      have hA2 : abortOk (stepQ st (Ev.send s)) rest = true := by
        simp [abortOk] at hA; exact hA
      have hT2 : timerCount rest = 1 := by
        simp [timerCount, List.countP_cons] at hT ⊢; exact hT
      exact ih (stepQ st (Ev.send s)) (stepQ_inv st _ hI) hA2 hT2
    | recv =>
      have hA2 : abortOk (stepQ st Ev.recv) rest = true := by
        simp [abortOk] at hA; exact hA
      have hT2 : timerCount rest = 1 := by
        simp [timerCount, List.countP_cons] at hT ⊢; exact hT
      exact ih (stepQ st Ev.recv) (stepQ_inv st _ hI) hA2 hT2
    | evict =>
      have hA2 : abortOk (stepQ st Ev.evict) rest = true := by
        simp [abortOk] at hA; exact hA
      have hT2 : timerCount rest = 1 := by
        simp [timerCount, List.countP_cons] at hT ⊢; exact hT
      exact ih (stepQ st Ev.evict) (stepQ_inv st _ hI) hA2 hT2

/-- Membership in the key set after a map insertion. -/
theorem mem_mapInsert_keys (t : List (Nat × QEntry)) (i : Nat) (q : QEntry)
    (a : Nat) :
    a ∈ (mapInsert t i q).map Prod.fst ↔ a = i ∨ a ∈ t.map Prod.fst := by
  induction t with
  | nil => simp [mapInsert]
  | cons kv rest ih =>
    obtain ⟨k, v⟩ := kv
    by_cases hk : k = i
    · subst hk
      have he : mapInsert ((k, v) :: rest) k q = (k, q) :: rest := by
        simp [mapInsert]
      rw [he]
      simp only [List.map_cons, List.mem_cons]
      tauto
    · have he : mapInsert ((k, v) :: rest) i q = (k, v) :: mapInsert rest i q := by
        simp [mapInsert, hk]
      rw [he]
      simp only [List.map_cons, List.mem_cons, ih]
      tauto

/-- std::map insertion keeps the key set duplicate-free. -/
theorem mapInsert_nodup (t : List (Nat × QEntry)) (i : Nat) (q : QEntry)
    (h : (t.map Prod.fst).Nodup) : ((mapInsert t i q).map Prod.fst).Nodup := by
  induction t with
  | nil => simp [mapInsert]
  | cons kv rest ih =>
    obtain ⟨k, v⟩ := kv
    rw [List.map_cons, List.nodup_cons] at h
    by_cases hk : k = i
    · subst hk
      have he : mapInsert ((k, v) :: rest) k q = (k, q) :: rest := by
        simp [mapInsert]
      rw [he, List.map_cons, List.nodup_cons]
      exact h
    · have he : mapInsert ((k, v) :: rest) i q = (k, v) :: mapInsert rest i q := by
        simp [mapInsert, hk]
      rw [he, List.map_cons, List.nodup_cons]
      refine ⟨?_, ih h.2⟩
      intro hmem
      rcases (mem_mapInsert_keys rest i q k).mp hmem with h2 | h2
      · exact hk h2
      · exact h.1 h2

/-- After insertion, lookup at the inserted key finds the new value. -/
theorem lookupTable_mapInsert (t : List (Nat × QEntry)) (i : Nat) (q : QEntry) :
    lookupTable (mapInsert t i q) i = some q := by
  induction t with
  | nil => simp [mapInsert, lookupTable]
  | cons kv rest ih =>
    obtain ⟨k, v⟩ := kv
    by_cases hk : k = i
    · subst hk
      have he : mapInsert ((k, v) :: rest) k q = (k, q) :: rest := by
        simp [mapInsert]
      rw [he]
      simp [lookupTable]
    · have he : mapInsert ((k, v) :: rest) i q = (k, v) :: mapInsert rest i q := by
        simp [mapInsert, hk]
      rw [he]
      simp [lookupTable, hk, ih]

/-! Claim theorems. -/

/-- C1: for every query submitted via async_query and registered, the user
callback is invoked exactly once with a single terminal outcome, and the
done flag transitions false to true exactly once, synchronized with that
invocation, regardless of how the response, timeout, and send-error
completions interleave.  The event sequence is arbitrary except that the
armed timer completes exactly once and its status can be operation_aborted
only after some handler called cancel; send completions, correlated
datagrams and table evictions are unconstrained. -/
theorem C1_exactly_once (evs : List Ev)
    (hT : timerCount evs = 1) (hA : abortOk initQState evs = true) :
    (runEvents initQState evs).calls.length = 1 ∧
    (runEvents initQState evs).done = true ∧
    ∀ n : Nat,
      ((runEvents initQState (evs.take n)).done = true ↔
       (runEvents initQState (evs.take n)).calls.length = 1) := by
  have h0 : QInv initQState := Or.inl (by simp [initQState])
  have hdone := runEvents_timer_done evs initQState h0 hA hT
  refine ⟨?_, hdone, ?_⟩
  · rcases runEvents_inv evs initQState h0 with ⟨hd, _, _⟩ | ⟨_, hc⟩
    · rw [hdone] at hd; cases hd
    · exact hc
  · intro n
    rcases runEvents_inv (evs.take n) initQState h0 with ⟨hd, hc, _⟩ | ⟨hd, hc⟩
    · rw [hd, hc]
      simp
    · rw [hd, hc]
      simp

/-- Witness for C1 at a concrete interleaving: send ok, then the response
arrives, then the timer completes with success. -/
theorem C1_exactly_once_witness :
    timerCount evs0 = 1 ∧ abortOk initQState evs0 = true ∧
    ((runEvents initQState evs0).calls.length = 1 ∧
     (runEvents initQState evs0).done = true ∧
     ∀ n : Nat,
       ((runEvents initQState (evs0.take n)).done = true ↔
        (runEvents initQState (evs0.take n)).calls.length = 1)) :=
  ⟨by decide, by decide, C1_exactly_once evs0 (by decide) (by decide)⟩

/-- C2 counterexample: the claim says a submit whose drawn ID collides with
a currently-registered ID detects the collision and redraws before
registering.  The registration `queries_[query->id] = query` does neither:
submitting qB with drawn ID 7 while qA is registered under 7 registers qB
under the colliding ID 7 itself and silently evicts qA. -/
theorem C2_no_redraw_counterexample :
    lookupTable [(7, qA)] 7 = some qA ∧
    qB.id = 7 ∧
    registerQueryStep [(7, qA)] qB = [(7, qB)] ∧
    lookupTable (registerQueryStep [(7, qA)] qB) 7 = some qB ∧
    qA ∉ (registerQueryStep [(7, qA)] qB).map Prod.snd := by
  refine ⟨rfl, rfl, rfl, rfl, ?_⟩
  simp [registerQueryStep, mapInsert, qA, qB]

/-- C2 (amended): no two entries of the Query Table ever share a transaction
ID, but only because the Table is a map keyed by ID — registration inserts
the query at its drawn ID unconditionally, overwriting (not redrawing on)
a collision. -/
theorem C2_id_uniqueness_by_map (table : List (Nat × QEntry)) (q : QEntry)
    (h : (table.map Prod.fst).Nodup) :
    ((registerQueryStep table q).map Prod.fst).Nodup ∧
    lookupTable (registerQueryStep table q) q.id = some q :=
  ⟨mapInsert_nodup table q.id q h, lookupTable_mapInsert table q.id q⟩

/-- Witness for the amended C2: registering qB into the table holding qC. -/
theorem C2_id_uniqueness_by_map_witness :
    ([(3, qC)].map Prod.fst).Nodup ∧
    (((registerQueryStep [(3, qC)] qB).map Prod.fst).Nodup ∧
     lookupTable (registerQueryStep [(3, qC)] qB) qB.id = some qB) :=
  ⟨by decide, C2_id_uniqueness_by_map [(3, qC)] qB (by decide)⟩

/-- C3: for a successfully encoded query, the posted submit task registers
the query's ID in the Table strictly before it submits the datagram to the
socket: in the action sequence, every sendSubmit is preceded by the
registration of the ID drawn from the encoded header. -/
theorem C3_register_precedes_send
    (re : String → QueryType → Option (List Nat)) (name : String)
    (t : QueryType) (bytes : List Nat)
    (he : res_nmkquery re name t PACKETSZ = some bytes) :
    (asyncQuerySubmit re true name t).1 =
      [Action.registerQuery (ns_get16 bytes), Action.armTimer,
       Action.sendSubmit] ∧
    ∀ j : Nat,
      ((asyncQuerySubmit re true name t).1)[j]? = some Action.sendSubmit →
      ∃ i : Nat, i < j ∧
        ((asyncQuerySubmit re true name t).1)[i]? =
          some (Action.registerQuery (ns_get16 bytes)) := by
  have hacts : (asyncQuerySubmit re true name t).1 =
      [Action.registerQuery (ns_get16 bytes), Action.armTimer,
       Action.sendSubmit] := by
    simp [asyncQuerySubmit, he]
  refine ⟨hacts, ?_⟩
  intro j hj
  rw [hacts] at hj ⊢
  match j with
  | 0 => simp at hj
  | 1 => simp at hj
  | 2 => exact ⟨0, by omega, rfl⟩
  | n + 3 => simp at hj

/-- Witness for C3 with a concrete successful encoding. -/
theorem C3_register_precedes_send_witness :
    res_nmkquery reOk "example.com" QueryType.TYPE_A PACKETSZ = some msg0 ∧
    ((asyncQuerySubmit reOk true "example.com" QueryType.TYPE_A).1 =
      [Action.registerQuery (ns_get16 msg0), Action.armTimer,
       Action.sendSubmit] ∧
     ∀ j : Nat,
       ((asyncQuerySubmit reOk true "example.com" QueryType.TYPE_A).1)[j]? =
         some Action.sendSubmit →
       ∃ i : Nat, i < j ∧
         ((asyncQuerySubmit reOk true "example.com" QueryType.TYPE_A).1)[i]? =
           some (Action.registerQuery (ns_get16 msg0))) :=
  ⟨by decide,
   C3_register_precedes_send reOk "example.com" QueryType.TYPE_A msg0
     (by decide)⟩

/-- C4: the timer wait handler fires TIMEOUT (recording the outcome, setting
done, removing the Table entry, invoking the callback) exactly when it
completes non-cancelled with done still false; a non-cancelled completion on
a done query is a no-op, and an aborted (cancelled) completion does
nothing. -/
theorem C4_timer_handler (st : QState) :
    (st.done = false →
      timerHandler TimerStatus.success st =
        { st with done := true, inTable := false,
                  calls := st.calls ++ [QueryResult.RESULT_TIMEOUT] }) ∧
    (st.done = true → timerHandler TimerStatus.success st = st) ∧
    timerHandler TimerStatus.aborted st = st := by
  refine ⟨?_, ?_, rfl⟩ <;> intro h <;> simp [timerHandler, h]

/-- Witness for C4 at the freshly registered state. -/
theorem C4_timer_handler_witness :
    initQState.done = false ∧
    timerHandler TimerStatus.success initQState =
      { initQState with done := true, inTable := false,
                        calls := initQState.calls ++
                          [QueryResult.RESULT_TIMEOUT] } :=
  ⟨rfl, (C4_timer_handler initQState).1 rfl⟩

/-- C5: a correlated reply (from the nameserver, parsed, ID registered,
query not done) always yields exactly one RESULT_SUCCESS callback carrying
the header's RCODE verbatim, never RESULT_ERROR; with zero answer records
the addrs and cnames delivered are empty. -/
theorem C5_rcode_verbatim (u : List Nat → Option String) (ns : Endpoint)
    (table : List (Nat × QEntry)) (d : Datagram) (m : ParsedMsg) (q : QEntry)
    (hs : d.sender = ns) (hp : d.parsed = some m)
    (hl : lookupTable table m.id = some q) (hd : q.done = false) :
    (handleReceive u ns table (RecvResult.datagram d)).calls =
      [⟨QueryResult.RESULT_SUCCESS, q.name, q.qtype, m.rcode,
        (processAnswers u m.answers).1, (processAnswers u m.answers).2⟩] ∧
    (∀ c ∈ (handleReceive u ns table (RecvResult.datagram d)).calls,
      c.result = QueryResult.RESULT_SUCCESS) ∧
    (m.answers = [] →
      (handleReceive u ns table (RecvResult.datagram d)).calls =
        [⟨QueryResult.RESULT_SUCCESS, q.name, q.qtype, m.rcode, [], []⟩]) := by
  have hcalls : (handleReceive u ns table (RecvResult.datagram d)).calls =
      [⟨QueryResult.RESULT_SUCCESS, q.name, q.qtype, m.rcode,
        (processAnswers u m.answers).1, (processAnswers u m.answers).2⟩] := by
    simp [handleReceive, hs, hp, hl, hd]
  refine ⟨hcalls, ?_, ?_⟩
  · intro c hc
    rw [hcalls] at hc
    simp at hc
    rw [hc]
  · intro hz
    rw [hcalls, hz]
    simp [processAnswers]

/-- Witness for C5: an NXDOMAIN reply (RCODE 3, zero answers) to the pending
query "nope.invalid" produces SUCCESS with rcode 3 and empty lists. -/
theorem C5_rcode_verbatim_witness :
    dNx.sender = ns0 ∧ dNx.parsed = some mNx ∧
    lookupTable tblNx mNx.id = some qNx ∧ qNx.done = false ∧
    (handleReceive u0 ns0 tblNx (RecvResult.datagram dNx)).calls =
      [⟨QueryResult.RESULT_SUCCESS, qNx.name, qNx.qtype, mNx.rcode,
        (processAnswers u0 mNx.answers).1, (processAnswers u0 mNx.answers).2⟩] ∧
    mNx.rcode = 3 ∧
    (handleReceive u0 ns0 tblNx (RecvResult.datagram dNx)).calls =
      [⟨QueryResult.RESULT_SUCCESS, qNx.name, qNx.qtype, mNx.rcode, [], []⟩] :=
  ⟨rfl, rfl, rfl, rfl,
   (C5_rcode_verbatim u0 ns0 tblNx dNx mNx qNx rfl rfl rfl rfl).1,
   rfl,
   (C5_rcode_verbatim u0 ns0 tblNx dNx mNx qNx rfl rfl rfl rfl).2.2 rfl⟩

/-- C6: per answer record of a decoded response, the loop appends
(owner, IPv4) for a type-A record (type 1, RDLENGTH 4), (owner, IPv6) for a
type-AAAA record (type 28, RDLENGTH 16), (owner, canonical name) to the
cname list for a type-CNAME record (type 5) whose RDATA decompresses;
records of any other type are ignored, and a record whose ns_parserr call or
name decompression fails is skipped while the remaining records are still
processed. -/
theorem C6_answer_record_dispatch (u : List Nat → Option String)
    (pre post : List (Option RR)) :
    (processAnswers u (pre ++ none :: post) = processAnswers u (pre ++ post)) ∧
    (∀ rr : RR, rr.rtype = ns_t_cname → u rr.rdata = none →
      processAnswers u (pre ++ some rr :: post) =
        processAnswers u (pre ++ post)) ∧
    (∀ rr : RR, rr.rtype = ns_t_a → rr.rdlength = 4 →
      processAnswers u (pre ++ [some rr]) =
        ((processAnswers u pre).1 ++
           [(rr.owner, IpAddress.v4 (ns_get32 rr.rdata))],
         (processAnswers u pre).2)) ∧
    (∀ rr : RR, rr.rtype = ns_t_aaaa → rr.rdlength = 16 →
      processAnswers u (pre ++ [some rr]) =
        ((processAnswers u pre).1 ++
           [(rr.owner, IpAddress.v6 (rr.rdata.take 16))],
         (processAnswers u pre).2)) ∧
    (∀ rr : RR, ∀ s : String, rr.rtype = ns_t_cname → u rr.rdata = some s →
      processAnswers u (pre ++ [some rr]) =
        ((processAnswers u pre).1,
         (processAnswers u pre).2 ++ [(rr.owner, s)])) ∧
    (∀ rr : RR, rr.rtype ≠ ns_t_a → rr.rtype ≠ ns_t_aaaa →
      rr.rtype ≠ ns_t_cname →
      processAnswers u (pre ++ some rr :: post) =
        processAnswers u (pre ++ post)) := by
  have hchar : ∀ l : List (Option RR),
      processAnswers u l = (l.filterMap addrOf, l.filterMap (cnameOf u)) := by
    intro l
    simpa using foldl_answerStep u l [] []
  refine ⟨?_, ?_, ?_, ?_, ?_, ?_⟩
  · rw [hchar, hchar]
    simp [addrOf, cnameOf]
  · intro rr h5 hu
    rw [hchar, hchar]
    simp [addrOf, cnameOf, h5, hu, ns_t_cname]
  · intro rr h1 _
    rw [hchar, hchar]
    simp [addrOf, cnameOf, h1, ns_t_a, ns_t_cname]
  · intro rr h28 _
    rw [hchar, hchar]
    simp [addrOf, cnameOf, h28, ns_t_a, ns_t_cname, ns_t_aaaa]
  · intro rr s h5 hu
    rw [hchar, hchar]
    simp [addrOf, cnameOf, h5, hu, ns_t_cname]
  · intro rr h1 h28 h5
    rw [hchar, hchar]
    simp [addrOf, cnameOf, h1, h28, h5]

/-- Witness for C6 at a concrete type-A record with RDLENGTH 4. -/
theorem C6_answer_record_dispatch_witness :
    rrA0.rtype = ns_t_a ∧ rrA0.rdlength = 4 ∧
    processAnswers u0 ([] ++ [some rrA0]) =
      ((processAnswers u0 []).1 ++
         [(rrA0.owner, IpAddress.v4 (ns_get32 rrA0.rdata))],
       (processAnswers u0 []).2) :=
  ⟨rfl, rfl, (C6_answer_record_dispatch u0 [] []).2.2.1 rrA0 rfl rfl⟩

/-- C7: when encoding of a submitted query fails — including when the raw
encoding exceeds the 512-octet buffer — async_query fires the callback with
RESULT_ERROR, sets done to true, and returns having performed no
registration, timer arming, or send. -/
theorem C7_encode_failure
    (re : String → QueryType → Option (List Nat)) (resInitOk : Bool)
    (name : String) (t : QueryType) :
    (res_nmkquery re name t PACKETSZ = none →
      asyncQuerySubmit re resInitOk name t = ([Action.callbackError], true)) ∧
    (∀ bytes : List Nat, re name t = some bytes → PACKETSZ < bytes.length →
      res_nmkquery re name t PACKETSZ = none) ∧
    (res_nmkquery re name t PACKETSZ = none →
      ∀ a ∈ (asyncQuerySubmit re resInitOk name t).1,
        a = Action.callbackError) ∧
    (resInitOk = false →
      asyncQuerySubmit re resInitOk name t = ([Action.callbackError], true)) := by
  refine ⟨?_, ?_, ?_, ?_⟩
  · intro h
    cases resInitOk
    · simp [asyncQuerySubmit]
    · simp [asyncQuerySubmit, h]
  · intro bytes hb hlen
    simp [res_nmkquery, hb]
    omega
  · intro h a ha
    cases resInitOk
    · simp [asyncQuerySubmit] at ha
      exact ha
    · simp [asyncQuerySubmit, h] at ha
      exact ha
  · intro h
    rw [h]
    simp [asyncQuerySubmit]

/-- Witness for C7: an encoding of 600 octets exceeds the 512-octet buffer,
so res_nmkquery fails and async_query fires only the error callback with
done set. -/
theorem C7_encode_failure_witness :
    reBig "toolong.example" QueryType.TYPE_A = some bigMsg ∧
    PACKETSZ < bigMsg.length ∧
    res_nmkquery reBig "toolong.example" QueryType.TYPE_A PACKETSZ = none ∧
    asyncQuerySubmit reBig true "toolong.example" QueryType.TYPE_A =
      ([Action.callbackError], true) := by
  have h := C7_encode_failure reBig true "toolong.example" QueryType.TYPE_A
  have hlen : PACKETSZ < bigMsg.length := by
    unfold bigMsg PACKETSZ
    rw [List.length_replicate]
    omega
  have h2 : res_nmkquery reBig "toolong.example" QueryType.TYPE_A PACKETSZ =
      none := h.2.1 bigMsg rfl hlen
  exact ⟨rfl, hlen, h2, h.1 h2⟩

/-- C8: a datagram from a sender other than the configured nameserver, or
whose transaction ID is not registered, is dropped: the Query Table is left
unchanged, no callback fires, no timer is cancelled, and the receive loop
re-arms. -/
theorem C8_drop_uncorrelated (u : List Nat → Option String) (ns : Endpoint)
    (table : List (Nat × QEntry)) (d : Datagram)
    (h : d.sender ≠ ns ∨
         ∃ m : ParsedMsg, d.parsed = some m ∧ lookupTable table m.id = none) :
    (handleReceive u ns table (RecvResult.datagram d)).table = table ∧
    (handleReceive u ns table (RecvResult.datagram d)).calls = [] ∧
    (handleReceive u ns table (RecvResult.datagram d)).cancels = [] ∧
    (handleReceive u ns table (RecvResult.datagram d)).rearm = true := by
  rcases h with h | ⟨m, hp, hl⟩
  · simp [handleReceive, h]
  · by_cases hs : d.sender = ns
    · simp [handleReceive, hs, hp, hl]
    · simp [handleReceive, hs]

/-- Witness for C8: a datagram from endpoint (2, 53) while the nameserver is
(1, 53) is dropped with the table untouched. -/
theorem C8_drop_uncorrelated_witness :
    (dSpoof.sender ≠ ns0 ∨
     ∃ m : ParsedMsg, dSpoof.parsed = some m ∧ lookupTable tbl8 m.id = none) ∧
    ((handleReceive u0 ns0 tbl8 (RecvResult.datagram dSpoof)).table = tbl8 ∧
     (handleReceive u0 ns0 tbl8 (RecvResult.datagram dSpoof)).calls = [] ∧
     (handleReceive u0 ns0 tbl8 (RecvResult.datagram dSpoof)).cancels = [] ∧
     (handleReceive u0 ns0 tbl8 (RecvResult.datagram dSpoof)).rearm = true) :=
  ⟨Or.inl (by decide),
   C8_drop_uncorrelated u0 ns0 tbl8 dSpoof (Or.inl (by decide))⟩

/-- C9: the receive handler re-arms the receive for every datagram — in
particular on per-datagram parse failures, spoofed senders, unknown IDs and
done queries — and fails to re-arm exactly on a transport error (the socket
closed during shutdown). -/
theorem C9_rearm_iff_no_transport_error (u : List Nat → Option String)
    (ns : Endpoint) (table : List (Nat × QEntry)) :
    (∀ d : Datagram,
      (handleReceive u ns table (RecvResult.datagram d)).rearm = true) ∧
    (handleReceive u ns table RecvResult.transportError).rearm = false := by
  constructor
  · intro d
    by_cases hs : d.sender = ns
    · cases hp : d.parsed with
      | none => simp [handleReceive, hs, hp]
      | some m =>
        cases hl : lookupTable table m.id with
        | none => simp [handleReceive, hs, hp, hl]
        | some q =>
          by_cases hd : q.done
          · simp [handleReceive, hs, hp, hl, hd]
          · simp [handleReceive, hs, hp, hl, hd]
    · simp [handleReceive, hs]
  · rfl

/-- C10: on a SUCCESS outcome the delivered addrs are exactly the in-order
projection of the A/AAAA answer records of the datagram, and the delivered
cnames the in-order projection of the CNAME records: both are filterMap
extractions over the answer section, hence preserve its relative order. -/
theorem C10_answer_order (u : List Nat → Option String) (ns : Endpoint)
    (table : List (Nat × QEntry)) (d : Datagram) (m : ParsedMsg) (q : QEntry)
    (hs : d.sender = ns) (hp : d.parsed = some m)
    (hl : lookupTable table m.id = some q) (hd : q.done = false) :
    (handleReceive u ns table (RecvResult.datagram d)).calls =
      [⟨QueryResult.RESULT_SUCCESS, q.name, q.qtype, m.rcode,
        m.answers.filterMap addrOf, m.answers.filterMap (cnameOf u)⟩] := by
  have hchar : processAnswers u m.answers =
      (m.answers.filterMap addrOf, m.answers.filterMap (cnameOf u)) := by
    simpa using foldl_answerStep u m.answers [] []
  simp [handleReceive, hs, hp, hl, hd, hchar]

/-- Witness for C10: a reply holding a CNAME record, then an A record, then
a record whose parse fails delivers addrs and cnames in answer order. -/
theorem C10_answer_order_witness :
    d10.sender = ns0 ∧ d10.parsed = some m10 ∧
    lookupTable tbl10 m10.id = some q10 ∧ q10.done = false ∧
    (handleReceive uC ns0 tbl10 (RecvResult.datagram d10)).calls =
      [⟨QueryResult.RESULT_SUCCESS, q10.name, q10.qtype, m10.rcode,
        m10.answers.filterMap addrOf, m10.answers.filterMap (cnameOf uC)⟩] :=
  ⟨rfl, rfl, rfl, rfl,
   C10_answer_order uC ns0 tbl10 d10 m10 q10 rfl rfl rfl rfl⟩

end AsyncDnsClient
